import Mathlib

/-!
Verification development for the terraform-provider-infradots repository.

The repository implements Terraform resource and data-source adapters
(Organization, Workspace, Variable, VCS connection) over an HTTP JSON API.
Each adapter operation is embedded here as a pure function of the local
state/plan record and of the HTTP exchange outcome (status code plus the
decoded response body).  Terraform framework values `types.String` and
`types.Bool` are embedded as `Option String` / `Option Bool` (`none` is the
framework null); `ValueString`/`ValueBool` return the zero value on null,
which is `Option.getD "" / Option.getD false`.  A JSON PATCH body produced
by `json.Marshal` of an `omitempty`-tagged Go struct is embedded as the
ordered list of the fields that marshalling emits: an `omitempty` string
field is emitted iff non-empty, an `omitempty` bare bool iff `true`, and an
`omitempty` pointer-to-bool iff the pointer is non-nil.  Timestamps travel
as already-formatted strings, which is immaterial to the properties below.
-/

/-- Helper for `goSplit`, walking the character list with the accumulated
current segment (kept reversed). -/
def goSplitAux (sep : Char) : List Char → List Char → List String
  | [], acc => [String.mk acc.reverse]
  | c :: cs, acc =>
    if c = sep then String.mk acc.reverse :: goSplitAux sep cs []
    else goSplitAux sep cs (c :: acc)

/-- Go's `strings.Split` for a single-character separator: splitting the
empty string yields `[""]`, and n separators yield n+1 segments. -/
def goSplit (s : String) (sep : Char) : List String :=
  goSplitAux sep s.data []

/-- Go's `strings.ToLower`, character-wise. -/
def goToLower (s : String) : String :=
  String.mk (s.data.map Char.toLower)

/-- A JSON scalar appearing in a serialized request payload. -/
inductive Jval where
  | str (s : String)
  | bool (b : Bool)
  deriving Repr, DecidableEq

/-- Outcome of one resource CRUD handler: the diagnostics it appended and the
resulting local state (`none` when the record is absent from state). -/
structure CrudOutcome (α : Type) where
  diags : List String
  state : Option α
  deriving Repr, DecidableEq

/-- Outcome of an ImportState or data-source Read handler: diagnostics, whether
the handler issued its network call, and the resulting state. -/
structure FetchOutcome (α : Type) where
  diags : List String
  networkCalled : Bool
  state : Option α
  deriving Repr, DecidableEq

/-! ## Organization resource (src/internal/resource_organization.go) -/

/-- `OrganizationResourceModel`: the Terraform state/plan record. -/
structure OrganizationResourceModel where
  id : Option String
  name : Option String
  createdAt : Option String
  updatedAt : Option String
  executionMode : Option String
  agentsEnabled : Option Bool
  deriving Repr, DecidableEq

/-- `OrganizationAPIResponse`, restricted to the fields the adapter consumes
(members/subscription/tags/teams are decoded but unused by the resource). -/
structure OrganizationAPIResponse where
  id : String
  name : String
  createdAt : String
  updatedAt : String
  executionMode : String
  agentsEnabled : Bool
  deriving Repr, DecidableEq

/-- State produced by `OrganizationResource.Create` from the plan and the
decoded 201 response: `Name` is left from the plan, `ExecutionMode` is
lower-cased (`strings.ToLower`). -/
def organizationCreateState (plan : OrganizationResourceModel)
    (resp : OrganizationAPIResponse) : OrganizationResourceModel :=
  { plan with
    id := some resp.id
    createdAt := some resp.createdAt
    updatedAt := some resp.updatedAt
    executionMode := some (goToLower resp.executionMode)
    agentsEnabled := some resp.agentsEnabled }

/-- `OrganizationResource.Create`: non-201 statuses are fatal and leave no
state; on 201 the response populates the state. -/
def organizationCreateGo (plan : OrganizationResourceModel) (status : Nat)
    (resp : OrganizationAPIResponse) : CrudOutcome OrganizationResourceModel :=
  if status ≠ 201 then ⟨["Non-201 response"], none⟩
  else ⟨[], some (organizationCreateState plan resp)⟩

/-- State produced by `OrganizationResource.Read` from the prior state and the
decoded 200 response: every field is overwritten, `ExecutionMode` verbatim
(no lower-casing). -/
def organizationReadState (st : OrganizationResourceModel)
    (resp : OrganizationAPIResponse) : OrganizationResourceModel :=
  { st with
    id := some resp.id
    name := some resp.name
    createdAt := some resp.createdAt
    updatedAt := some resp.updatedAt
    executionMode := some resp.executionMode
    agentsEnabled := some resp.agentsEnabled }

/-- `OrganizationResource.Read`: 404 removes the record silently, any other
non-200 status is fatal with the record kept, 200 refreshes the state. -/
def organizationReadGo (st : OrganizationResourceModel) (status : Nat)
    (resp : OrganizationAPIResponse) : CrudOutcome OrganizationResourceModel :=
  if status = 404 then ⟨[], none⟩
  else if status ≠ 200 then ⟨["Read failed"], some st⟩
  else ⟨[], some (organizationReadState st resp)⟩

/-- `OrganizationUpdateRequest`: all three fields are `omitempty`, and
`AgentsEnabled` is a bare `bool` (no pointer presence marker). -/
structure OrganizationUpdateRequest where
  name : String := ""
  executionMode : String := ""
  agentsEnabled : Bool := false
  deriving Repr, DecidableEq

/-- The field-diff performed by `OrganizationResource.Update`: a field of the
request is populated exactly when plan and state differ on it. -/
def organizationUpdateRequestOf (plan state : OrganizationResourceModel) :
    OrganizationUpdateRequest :=
  { name := if plan.name ≠ state.name then plan.name.getD "" else ""
    executionMode :=
      if plan.executionMode ≠ state.executionMode then plan.executionMode.getD "" else ""
    agentsEnabled :=
      if plan.agentsEnabled ≠ state.agentsEnabled then plan.agentsEnabled.getD false else false }

/-- `json.Marshal` of `OrganizationUpdateRequest` under its `omitempty` tags. -/
def marshalOrganizationUpdateRequest (r : OrganizationUpdateRequest) :
    List (String × Jval) :=
  (if r.name = "" then [] else [("name", Jval.str r.name)]) ++
  (if r.executionMode = "" then [] else [("execution_mode", Jval.str r.executionMode)]) ++
  (if r.agentsEnabled = false then [] else [("agents_enabled", Jval.bool r.agentsEnabled)])

/-- The serialized PATCH body sent by `OrganizationResource.Update`. -/
def organizationUpdatePayload (plan state : OrganizationResourceModel) :
    List (String × Jval) :=
  marshalOrganizationUpdateRequest (organizationUpdateRequestOf plan state)

/-- `OrganizationResource.Delete`: only 204 and 200 remove the record; every
other status (404 included) is fatal and the record remains in state. -/
def organizationDeleteGo (st : OrganizationResourceModel) (status : Nat) :
    CrudOutcome OrganizationResourceModel :=
  if status ≠ 204 ∧ status ≠ 200 then ⟨["Delete failed"], some st⟩
  else ⟨[], none⟩

/-! ## VCS API record and the nested VCS object of a workspace
(src/internal/resource_vcs.go) -/

/-- `VCSAPIResponse`: the decoded VCS record returned by the API.  The API
never returns the client secret. -/
structure VCSAPIResponse where
  id : String
  name : String
  vcsType : String
  url : String
  clientId : String
  description : String
  createdAt : String
  updatedAt : String
  deriving Repr, DecidableEq

/-- The attribute bundle held by a workspace's computed `vcs` object. -/
structure VcsObject where
  id : String
  name : String
  vcsType : String
  url : String
  description : String
  createdAt : String
  updatedAt : String
  deriving Repr, DecidableEq

/-- `vcsToObject`: a nil embedded VCS record maps to the null object, a
present one to a fully populated object. -/
def vcsToObject : Option VCSAPIResponse → Option VcsObject
  | none => none
  | some vcs => some
      { id := vcs.id, name := vcs.name, vcsType := vcs.vcsType, url := vcs.url
        description := vcs.description, createdAt := vcs.createdAt, updatedAt := vcs.updatedAt }

/-! ## Workspace resource (src/internal/resource_vcs.go, WorkspaceResource) -/

/-- `WorkspaceResourceModel` (the variant with the nested `vcs` object). -/
structure WorkspaceResourceModel where
  id : Option String
  organizationName : Option String
  name : Option String
  description : Option String
  source : Option String
  branch : Option String
  terraformVersion : Option String
  createdAt : Option String
  updatedAt : Option String
  vcsId : Option String
  vcs : Option VcsObject
  deriving Repr, DecidableEq

/-- `WorkspaceAPIResponse`: the decoded workspace record, with an optional
embedded VCS sub-record. -/
structure WorkspaceAPIResponse where
  id : String
  name : String
  description : String
  source : String
  branch : String
  terraformVersion : String
  createdAt : String
  updatedAt : String
  vcs : Option VCSAPIResponse
  deriving Repr, DecidableEq

/-- State written by `WorkspaceResource.Create` from the plan and the decoded
201 response (every returned field overwrites the plan copy). -/
def workspaceCreateState (plan : WorkspaceResourceModel)
    (resp : WorkspaceAPIResponse) : WorkspaceResourceModel :=
  { plan with
    id := some resp.id
    name := some resp.name
    description := some resp.description
    source := some resp.source
    branch := some resp.branch
    terraformVersion := some resp.terraformVersion
    createdAt := some resp.createdAt
    updatedAt := some resp.updatedAt
    vcs := vcsToObject resp.vcs }

/-- `WorkspaceResource.Create`. -/
def workspaceCreateGo (plan : WorkspaceResourceModel) (status : Nat)
    (resp : WorkspaceAPIResponse) : CrudOutcome WorkspaceResourceModel :=
  if status ≠ 201 then ⟨["Non-201 response"], none⟩
  else ⟨[], some (workspaceCreateState plan resp)⟩

/-- State written by `WorkspaceResource.Read` on a 200 response. -/
def workspaceReadState (st : WorkspaceResourceModel)
    (resp : WorkspaceAPIResponse) : WorkspaceResourceModel :=
  { st with
    id := some resp.id
    name := some resp.name
    description := some resp.description
    source := some resp.source
    branch := some resp.branch
    terraformVersion := some resp.terraformVersion
    createdAt := some resp.createdAt
    updatedAt := some resp.updatedAt
    vcs := vcsToObject resp.vcs }

/-- `WorkspaceResource.Read`: 404 removes silently, other non-200 statuses
are fatal, 200 refreshes the state. -/
def workspaceReadGo (st : WorkspaceResourceModel) (status : Nat)
    (resp : WorkspaceAPIResponse) : CrudOutcome WorkspaceResourceModel :=
  if status = 404 then ⟨[], none⟩
  else if status ≠ 200 then ⟨["Read failed"], some st⟩
  else ⟨[], some (workspaceReadState st resp)⟩

/-- `WorkspaceUpdateRequest`: five `omitempty` string fields. -/
structure WorkspaceUpdateRequest where
  name : String := ""
  description : String := ""
  source : String := ""
  branch : String := ""
  terraformVersion : String := ""
  deriving Repr, DecidableEq

/-- The field-diff performed by `WorkspaceResource.Update`. -/
def workspaceUpdateRequestOf (plan state : WorkspaceResourceModel) :
    WorkspaceUpdateRequest :=
  { name := if plan.name ≠ state.name then plan.name.getD "" else ""
    description := if plan.description ≠ state.description then plan.description.getD "" else ""
    source := if plan.source ≠ state.source then plan.source.getD "" else ""
    branch := if plan.branch ≠ state.branch then plan.branch.getD "" else ""
    terraformVersion :=
      if plan.terraformVersion ≠ state.terraformVersion then plan.terraformVersion.getD "" else "" }

/-- `json.Marshal` of `WorkspaceUpdateRequest` under its `omitempty` tags. -/
def marshalWorkspaceUpdateRequest (r : WorkspaceUpdateRequest) :
    List (String × Jval) :=
  (if r.name = "" then [] else [("name", Jval.str r.name)]) ++
  (if r.description = "" then [] else [("description", Jval.str r.description)]) ++
  (if r.source = "" then [] else [("source", Jval.str r.source)]) ++
  (if r.branch = "" then [] else [("branch", Jval.str r.branch)]) ++
  (if r.terraformVersion = "" then [] else [("terraform_version", Jval.str r.terraformVersion)])

/-- The serialized PATCH body sent by `WorkspaceResource.Update`. -/
def workspaceUpdatePayload (plan state : WorkspaceResourceModel) :
    List (String × Jval) :=
  marshalWorkspaceUpdateRequest (workspaceUpdateRequestOf plan state)

/-- `WorkspaceResource.Delete`: only 204 and 200 remove the record. -/
def workspaceDeleteGo (st : WorkspaceResourceModel) (status : Nat) :
    CrudOutcome WorkspaceResourceModel :=
  if status ≠ 204 ∧ status ≠ 200 then ⟨["Delete failed"], some st⟩
  else ⟨[], none⟩

/-- `WorkspaceResource.ImportState`: the import key must split on `":"` into
exactly two segments before the list request is issued; the listed
workspaces are then linearly scanned for the first exact name match. -/
def workspaceImportStateGo (key : String) (status : Nat)
    (list : List WorkspaceAPIResponse) : FetchOutcome WorkspaceResourceModel :=
  match goSplit key ':' with
  | [organizationName, workspaceName] =>
    if status ≠ 200 then ⟨["Failed to fetch workspaces"], true, none⟩
    else
      match list.find? (fun w => w.name = workspaceName) with
      | none => ⟨["Workspace not found"], true, none⟩
      | some w => ⟨[], true, some
          { id := some w.id
            organizationName := some organizationName
            name := some w.name
            description := some w.description
            source := some w.source
            branch := some w.branch
            terraformVersion := some w.terraformVersion
            createdAt := some w.createdAt
            updatedAt := some w.updatedAt
            vcsId := none
            vcs := vcsToObject w.vcs }⟩
  | _ => ⟨["Invalid import ID format"], false, none⟩

/-! ## Variable resource (internal/resource_variable.go) -/

/-- `VariableResourceModel`. -/
structure VariableResourceModel where
  id : Option String
  organizationName : Option String
  key : Option String
  value : Option String
  description : Option String
  category : Option String
  sensitive : Option Bool
  hcl : Option Bool
  createdAt : Option String
  updatedAt : Option String
  deriving Repr, DecidableEq

/-- `VariableAPIResponse`: the decoded variable record.  A `value` field
absent from the JSON body decodes to the Go zero value `""`. -/
structure VariableAPIResponse where
  id : String
  key : String
  value : String
  description : String
  category : String
  sensitive : Bool
  hcl : Bool
  createdAt : String
  updatedAt : String
  deriving Repr, DecidableEq

/-- State written by `VariableResource.Create` on a 201 response: every
field, the `value` included, is overwritten from the response. -/
def variableCreateState (plan : VariableResourceModel)
    (resp : VariableAPIResponse) : VariableResourceModel :=
  { plan with
    id := some resp.id
    key := some resp.key
    value := some resp.value
    description := some resp.description
    category := some resp.category
    sensitive := some resp.sensitive
    hcl := some resp.hcl
    createdAt := some resp.createdAt
    updatedAt := some resp.updatedAt }

/-- `VariableResource.Create`. -/
def variableCreateGo (plan : VariableResourceModel) (status : Nat)
    (resp : VariableAPIResponse) : CrudOutcome VariableResourceModel :=
  if status ≠ 201 then ⟨["Non-201 response"], none⟩
  else ⟨[], some (variableCreateState plan resp)⟩

/-- State written by `VariableResource.Read` on a 200 response: every field,
the `value` included, is overwritten from the response. -/
def variableReadState (st : VariableResourceModel)
    (resp : VariableAPIResponse) : VariableResourceModel :=
  { st with
    id := some resp.id
    key := some resp.key
    value := some resp.value
    description := some resp.description
    category := some resp.category
    sensitive := some resp.sensitive
    hcl := some resp.hcl
    createdAt := some resp.createdAt
    updatedAt := some resp.updatedAt }

/-- `VariableResource.Read`: 404 removes silently, other non-200 statuses
are fatal, 200 refreshes the state. -/
def variableReadGo (st : VariableResourceModel) (status : Nat)
    (resp : VariableAPIResponse) : CrudOutcome VariableResourceModel :=
  if status = 404 then ⟨[], none⟩
  else if status ≠ 200 then ⟨["Read failed"], some st⟩
  else ⟨[], some (variableReadState st resp)⟩

/-- `VariableUpdateRequest`: string fields are `omitempty`, and `Sensitive`
and `HCL` are `*bool` pointers (an explicit presence marker). -/
structure VariableUpdateRequest where
  key : String := ""
  value : String := ""
  description : String := ""
  category : String := ""
  sensitive : Option Bool := none
  hcl : Option Bool := none
  deriving Repr, DecidableEq

/-- The field-diff performed by `VariableResource.Update`: changed booleans
are stored through the pointer, so a changed-to-`false` value survives. -/
def variableUpdateRequestOf (plan state : VariableResourceModel) :
    VariableUpdateRequest :=
  { key := if plan.key ≠ state.key then plan.key.getD "" else ""
    value := if plan.value ≠ state.value then plan.value.getD "" else ""
    description := if plan.description ≠ state.description then plan.description.getD "" else ""
    category := if plan.category ≠ state.category then plan.category.getD "" else ""
    sensitive := if plan.sensitive ≠ state.sensitive then some (plan.sensitive.getD false) else none
    hcl := if plan.hcl ≠ state.hcl then some (plan.hcl.getD false) else none }

/-- `json.Marshal` of `VariableUpdateRequest`: `omitempty` drops empty
strings and nil pointers, but a non-nil `*bool` is emitted even when it
points at `false`. -/
def marshalVariableUpdateRequest (r : VariableUpdateRequest) :
    List (String × Jval) :=
  (if r.key = "" then [] else [("key", Jval.str r.key)]) ++
  (if r.value = "" then [] else [("value", Jval.str r.value)]) ++
  (if r.description = "" then [] else [("description", Jval.str r.description)]) ++
  (if r.category = "" then [] else [("category", Jval.str r.category)]) ++
  (match r.sensitive with
   | none => []
   | some b => [("sensitive", Jval.bool b)]) ++
  (match r.hcl with
   | none => []
   | some b => [("hcl", Jval.bool b)])

/-- The serialized PATCH body sent by `VariableResource.Update`. -/
def variableUpdatePayload (plan state : VariableResourceModel) :
    List (String × Jval) :=
  marshalVariableUpdateRequest (variableUpdateRequestOf plan state)

/-- `VariableResource.Delete`: only 204 and 200 remove the record. -/
def variableDeleteGo (st : VariableResourceModel) (status : Nat) :
    CrudOutcome VariableResourceModel :=
  if status ≠ 204 ∧ status ≠ 200 then ⟨["Delete failed"], some st⟩
  else ⟨[], none⟩

/-! ## VCS resource (src/internal/resource_vcs.go, VCSResource; ImportState
from the companion VCS resource file) -/

/-- `VCSResourceModel`. -/
structure VCSResourceModel where
  id : Option String
  organizationName : Option String
  name : Option String
  vcsType : Option String
  url : Option String
  clientId : Option String
  clientSecret : Option String
  description : Option String
  createdAt : Option String
  updatedAt : Option String
  deriving Repr, DecidableEq

/-- State written by `VCSResource.Create` on a 201 response: every returned
field overwrites the plan copy, but `ClientSecret` is never assigned (the
API does not echo it back), so it keeps the planned value. -/
def vcsCreateState (plan : VCSResourceModel)
    (resp : VCSAPIResponse) : VCSResourceModel :=
  { plan with
    id := some resp.id
    name := some resp.name
    vcsType := some resp.vcsType
    url := some resp.url
    clientId := some resp.clientId
    description := some resp.description
    createdAt := some resp.createdAt
    updatedAt := some resp.updatedAt }

/-- `VCSResource.Create`. -/
def vcsCreateGo (plan : VCSResourceModel) (status : Nat)
    (resp : VCSAPIResponse) : CrudOutcome VCSResourceModel :=
  if status ≠ 201 then ⟨["Non-201 response"], none⟩
  else ⟨[], some (vcsCreateState plan resp)⟩

/-- State written by `VCSResource.Read` on a 200 response: `ClientSecret` is
never assigned and keeps the prior state value. -/
def vcsReadState (st : VCSResourceModel)
    (resp : VCSAPIResponse) : VCSResourceModel :=
  { st with
    id := some resp.id
    name := some resp.name
    vcsType := some resp.vcsType
    url := some resp.url
    clientId := some resp.clientId
    description := some resp.description
    createdAt := some resp.createdAt
    updatedAt := some resp.updatedAt }

/-- `VCSResource.Read`: 404 removes silently, other non-200 statuses are
fatal, 200 refreshes every field except the write-only secret. -/
def vcsReadGo (st : VCSResourceModel) (status : Nat)
    (resp : VCSAPIResponse) : CrudOutcome VCSResourceModel :=
  if status = 404 then ⟨[], none⟩
  else if status ≠ 200 then ⟨["Read failed"], some st⟩
  else ⟨[], some (vcsReadState st resp)⟩

/-- `VCSUpdateRequest`: six `omitempty` string fields. -/
structure VCSUpdateRequest where
  name : String := ""
  vcsType : String := ""
  url : String := ""
  clientId : String := ""
  clientSecret : String := ""
  description : String := ""
  deriving Repr, DecidableEq

/-- The field-diff performed by `VCSResource.Update`. -/
def vcsUpdateRequestOf (plan state : VCSResourceModel) : VCSUpdateRequest :=
  { name := if plan.name ≠ state.name then plan.name.getD "" else ""
    vcsType := if plan.vcsType ≠ state.vcsType then plan.vcsType.getD "" else ""
    url := if plan.url ≠ state.url then plan.url.getD "" else ""
    clientId := if plan.clientId ≠ state.clientId then plan.clientId.getD "" else ""
    clientSecret := if plan.clientSecret ≠ state.clientSecret then plan.clientSecret.getD "" else ""
    description := if plan.description ≠ state.description then plan.description.getD "" else "" }

/-- `json.Marshal` of `VCSUpdateRequest` under its `omitempty` tags. -/
def marshalVCSUpdateRequest (r : VCSUpdateRequest) : List (String × Jval) :=
  (if r.name = "" then [] else [("name", Jval.str r.name)]) ++
  (if r.vcsType = "" then [] else [("vcs_type", Jval.str r.vcsType)]) ++
  (if r.url = "" then [] else [("url", Jval.str r.url)]) ++
  (if r.clientId = "" then [] else [("clientId", Jval.str r.clientId)]) ++
  (if r.clientSecret = "" then [] else [("clientSecret", Jval.str r.clientSecret)]) ++
  (if r.description = "" then [] else [("description", Jval.str r.description)])

/-- The serialized PATCH body sent by `VCSResource.Update`. -/
def vcsUpdatePayload (plan state : VCSResourceModel) : List (String × Jval) :=
  marshalVCSUpdateRequest (vcsUpdateRequestOf plan state)

/-- `VCSResource.Delete`: only 204 and 200 remove the record. -/
def vcsDeleteGo (st : VCSResourceModel) (status : Nat) :
    CrudOutcome VCSResourceModel :=
  if status ≠ 204 ∧ status ≠ 200 then ⟨["Delete failed"], some st⟩
  else ⟨[], none⟩

/-- `VCSResource.ImportState`: a two-segment `org:name` key is required
before the list request is issued; the listed VCS connections are linearly
scanned for the first exact name match, and the state is populated from the
match with `ClientSecret` left null (the list response never carries it). -/
def vcsImportStateGo (key : String) (status : Nat)
    (list : List VCSAPIResponse) : FetchOutcome VCSResourceModel :=
  match goSplit key ':' with
  | [organizationName, vcsName] =>
    if status ≠ 200 then ⟨["Failed to fetch VCS connections"], true, none⟩
    else
      match list.find? (fun v => v.name = vcsName) with
      | none => ⟨["VCS connection not found"], true, none⟩
      | some v => ⟨[], true, some
          { id := some v.id
            organizationName := some organizationName
            name := some v.name
            vcsType := some v.vcsType
            url := some v.url
            clientId := some v.clientId
            clientSecret := none
            description := some v.description
            createdAt := some v.createdAt
            updatedAt := some v.updatedAt }⟩
  | _ => ⟨["Invalid import ID format"], false, none⟩

/-! ## Workspace data source (src/internal, WorkspaceDataSource) -/

/-- `WorkspaceDataSourceModel`. -/
structure WorkspaceDataSourceModel where
  id : Option String
  organizationName : Option String
  name : Option String
  description : Option String
  source : Option String
  branch : Option String
  terraformVersion : Option String
  createdAt : Option String
  updatedAt : Option String
  deriving Repr, DecidableEq

/-- `WorkspaceDataSourceFilterModel`: the user-supplied lookup filter. -/
structure WorkspaceDataSourceFilterModel where
  id : Option String
  organizationName : Option String
  name : Option String
  deriving Repr, DecidableEq

/-- Mapping of one decoded workspace record into the data-source model. -/
def workspaceDataSourceModelOf (organizationName : Option String)
    (w : WorkspaceAPIResponse) : WorkspaceDataSourceModel :=
  { id := some w.id
    organizationName := organizationName
    name := some w.name
    description := some w.description
    source := some w.source
    branch := some w.branch
    terraformVersion := some w.terraformVersion
    createdAt := some w.createdAt
    updatedAt := some w.updatedAt }

/-- `WorkspaceDataSource.Read`: the filter must carry an id or both scope and
name (checked before any network call; an id without the scope also fails
before the call).  The by-id path decodes a single record; the by-name path
lists the scope and linearly scans for the first exact name match. -/
def workspaceDataSourceReadGo (filter : WorkspaceDataSourceFilterModel)
    (status : Nat) (single : WorkspaceAPIResponse)
    (list : List WorkspaceAPIResponse) : FetchOutcome WorkspaceDataSourceModel :=
  if filter.id = none ∧ (filter.organizationName = none ∨ filter.name = none) then
    ⟨["Missing required parameter"], false, none⟩
  else if filter.id ≠ none then
    if filter.organizationName = none then
      ⟨["Missing required parameter"], false, none⟩
    else if status ≠ 200 then ⟨["Unexpected HTTP status code"], true, none⟩
    else ⟨[], true, some (workspaceDataSourceModelOf filter.organizationName single)⟩
  else
    if status ≠ 200 then ⟨["Unexpected HTTP status code"], true, none⟩
    else
      match list.find? (fun w => w.name = filter.name.getD "") with
      | some w => ⟨[], true, some (workspaceDataSourceModelOf filter.organizationName w)⟩
      | none => ⟨["Workspace not found"], true, none⟩

/-! ## Organization data source (OrganizationDataSource) -/

/-- `Member` of an organization. -/
structure Member where
  email : String
  deriving Repr, DecidableEq

/-- `Team` of an organization. -/
structure Team where
  name : String
  deriving Repr, DecidableEq

/-- `OrganizationDataSourceModel`. -/
structure OrganizationDataSourceModel where
  id : Option String
  name : Option String
  createdAt : Option String
  updatedAt : Option String
  executionMode : Option String
  agentsEnabled : Option Bool
  members : List Member
  teams : List Team
  deriving Repr, DecidableEq

/-- `OrganizationDataSourceFilterModel`. -/
structure OrganizationDataSourceFilterModel where
  id : Option String
  name : Option String
  deriving Repr, DecidableEq

/-- The full decoded organization record as the data source consumes it. -/
structure OrganizationDataAPIResponse where
  id : String
  name : String
  members : List Member
  createdAt : String
  updatedAt : String
  teams : List Team
  executionMode : String
  agentsEnabled : Bool
  deriving Repr, DecidableEq

/-- `mapOrganizationToModel`. -/
def mapOrganizationToModel (apiResp : OrganizationDataAPIResponse) :
    OrganizationDataSourceModel :=
  { id := some apiResp.id
    name := some apiResp.name
    createdAt := some apiResp.createdAt
    updatedAt := some apiResp.updatedAt
    executionMode := some apiResp.executionMode
    agentsEnabled := some apiResp.agentsEnabled
    members := apiResp.members
    teams := apiResp.teams }

/-- `OrganizationDataSource.Read`: either the id or the name must be present
(checked before any network call); the by-name path lists all organizations
and linearly scans for the first exact name match. -/
def organizationDataSourceReadGo (filter : OrganizationDataSourceFilterModel)
    (status : Nat) (single : OrganizationDataAPIResponse)
    (list : List OrganizationDataAPIResponse) :
    FetchOutcome OrganizationDataSourceModel :=
  if filter.id = none ∧ filter.name = none then
    ⟨["Missing required parameter"], false, none⟩
  else if status ≠ 200 then ⟨["Unexpected HTTP status code"], true, none⟩
  else if filter.id ≠ none then
    ⟨[], true, some (mapOrganizationToModel single)⟩
  else
    match list.find? (fun org => org.name = filter.name.getD "") with
    | some org => ⟨[], true, some (mapOrganizationToModel org)⟩
    | none => ⟨["Organization not found"], true, none⟩

/-! ## VCS data source (VCSDataSource) -/

/-- `VCSDataSourceModel`. -/
structure VCSDataSourceModel where
  id : Option String
  organizationName : Option String
  name : Option String
  vcsType : Option String
  url : Option String
  clientId : Option String
  description : Option String
  createdAt : Option String
  updatedAt : Option String
  deriving Repr, DecidableEq

/-- `VCSDataSourceFilterModel`. -/
structure VCSDataSourceFilterModel where
  id : Option String
  organizationName : Option String
  name : Option String
  deriving Repr, DecidableEq

/-- Mapping of one decoded VCS record into the data-source model. -/
def vcsDataSourceModelOf (organizationName : Option String)
    (v : VCSAPIResponse) : VCSDataSourceModel :=
  { id := some v.id
    organizationName := organizationName
    name := some v.name
    vcsType := some v.vcsType
    url := some v.url
    clientId := some v.clientId
    description := some v.description
    createdAt := some v.createdAt
    updatedAt := some v.updatedAt }

/-- `VCSDataSource.Read`: same validation and lookup shape as the workspace
data source. -/
def vcsDataSourceReadGo (filter : VCSDataSourceFilterModel)
    (status : Nat) (single : VCSAPIResponse)
    (list : List VCSAPIResponse) : FetchOutcome VCSDataSourceModel :=
  if filter.id = none ∧ (filter.organizationName = none ∨ filter.name = none) then
    ⟨["Missing required parameter"], false, none⟩
  else if filter.id ≠ none then
    if filter.organizationName = none then
      ⟨["Missing required parameter"], false, none⟩
    else if status ≠ 200 then ⟨["Unexpected HTTP status code"], true, none⟩
    else ⟨[], true, some (vcsDataSourceModelOf filter.organizationName single)⟩
  else
    if status ≠ 200 then ⟨["Unexpected HTTP status code"], true, none⟩
    else
      match list.find? (fun v => v.name = filter.name.getD "") with
      | some v => ⟨[], true, some (vcsDataSourceModelOf filter.organizationName v)⟩
      | none => ⟨["VCS connection not found"], true, none⟩

/-! ## Example records used by witnesses and counterexamples -/

/-- A concrete organization state record. -/
def exOrgState : OrganizationResourceModel :=
  { id := some "2e240d2c-78e0-4832-abdc-daa33477a238"
    name := some "test-org"
    createdAt := some "2025-07-07T12:00:00Z"
    updatedAt := some "2025-07-07T12:00:00Z"
    executionMode := some "remote"
    agentsEnabled := some true }

/-- A concrete workspace state record. -/
def exWsState : WorkspaceResourceModel :=
  { id := some "3f340e3c-89f1-4321-bcde-eff34567890a"
    organizationName := some "test-org"
    name := some "test-workspace"
    description := some "a"
    source := some "https://github.com/example/repo"
    branch := some "main"
    terraformVersion := some "1.5.0"
    createdAt := some "2025-07-07T12:00:00Z"
    updatedAt := some "2025-07-07T12:00:00Z"
    vcsId := none
    vcs := none }

/-- A concrete variable state record holding a sensitive value. -/
def exVarState : VariableResourceModel :=
  { id := some "4f450f4d-9af2-5432-cdef-f0045678901b"
    organizationName := some "test-org"
    key := some "db-password"
    value := some "old-secret"
    description := some ""
    category := some "terraform"
    sensitive := some true
    hcl := some false
    createdAt := some "2025-07-07T12:00:00Z"
    updatedAt := some "2025-07-07T12:00:00Z" }

/-- A concrete VCS connection state record. -/
def exVcsState : VCSResourceModel :=
  { id := some "5f560f5e-0bf3-6543-defg-g1156789012c"
    organizationName := some "test-org"
    name := some "test-vcs"
    vcsType := some "github"
    url := some "https://github.com"
    clientId := some "test-client-id"
    clientSecret := some "test-client-secret"
    description := some "Test VCS connection"
    createdAt := some "2025-07-07T12:00:00Z"
    updatedAt := some "2025-07-07T12:00:00Z" }

/-- A concrete decoded organization response whose execution mode is the
capitalised `"Remote"`. -/
def exOrgResp : OrganizationAPIResponse :=
  { id := "2e240d2c-78e0-4832-abdc-daa33477a238"
    name := "test-org"
    createdAt := "2025-07-07T12:00:00Z"
    updatedAt := "2025-07-07T12:00:00Z"
    executionMode := "Remote"
    agentsEnabled := true }

/-- A concrete decoded organization response with lowercase execution mode. -/
def exOrgRespLower : OrganizationAPIResponse :=
  { exOrgResp with executionMode := "remote" }

/-- A concrete decoded workspace response. -/
def exWsResp : WorkspaceAPIResponse :=
  { id := "3f340e3c-89f1-4321-bcde-eff34567890a"
    name := "test-workspace"
    description := "Test workspace"
    source := "https://github.com/example/repo"
    branch := "main"
    terraformVersion := "1.5.0"
    createdAt := "2025-07-07T12:00:00Z"
    updatedAt := "2025-07-07T12:00:00Z"
    vcs := none }

/-- A concrete decoded variable response whose JSON body omitted the `value`
field, so it decoded to the zero value `""`. -/
def exVarRespNoValue : VariableAPIResponse :=
  { id := "4f450f4d-9af2-5432-cdef-f0045678901b"
    key := "db-password"
    value := ""
    description := ""
    category := "terraform"
    sensitive := true
    hcl := false
    createdAt := "2025-07-07T12:00:00Z"
    updatedAt := "2025-07-07T12:05:00Z" }

/-- A concrete decoded variable response carrying a value. -/
def exVarResp : VariableAPIResponse :=
  { exVarRespNoValue with value := "test-value" }

/-- A concrete decoded VCS response (no client secret: the API never returns
one). -/
def exVcsResp : VCSAPIResponse :=
  { id := "5f560f5e-0bf3-6543-defg-g1156789012c"
    name := "test-vcs"
    vcsType := "github"
    url := "https://github.com"
    clientId := "test-client-id"
    description := "Test VCS connection"
    createdAt := "2025-07-07T12:00:00Z"
    updatedAt := "2025-07-07T12:00:00Z" }

/-! ## C5 -/

/-- C5: for every resource adapter (Organization, Workspace, Variable, VCS),
a Read receiving HTTP status 404 removes the record from local state and
raises no error diagnostic. -/
theorem read404RemovesSilently
    (stO : OrganizationResourceModel) (rO : OrganizationAPIResponse)
    (stW : WorkspaceResourceModel) (rW : WorkspaceAPIResponse)
    (stV : VariableResourceModel) (rV : VariableAPIResponse)
    (stC : VCSResourceModel) (rC : VCSAPIResponse) :
    organizationReadGo stO 404 rO = ⟨[], none⟩ ∧
    workspaceReadGo stW 404 rW = ⟨[], none⟩ ∧
    variableReadGo stV 404 rV = ⟨[], none⟩ ∧
    vcsReadGo stC 404 rC = ⟨[], none⟩ :=
  ⟨rfl, rfl, rfl, rfl⟩

/-! ## C1 -/

/-- C1 counterexample: Delete receiving HTTP status 404 does NOT complete
successfully on the Organization adapter — it reports a fatal diagnostic and
the record remains in local state (the same guard appears verbatim in the
Workspace, Variable and VCS adapters). -/
theorem deleteOn404IsFatal_cex :
    (organizationDeleteGo exOrgState 404).diags ≠ [] ∧
    (organizationDeleteGo exOrgState 404).state = some exOrgState := by
  constructor
  · decide
  · decide

/-- C1 amended: for every resource adapter, Delete receiving HTTP status 204
or 200 completes with no diagnostics and removes the record from local
state; any other status — 404 included — reports a fatal error and the
record remains in local state. -/
theorem deleteStatusContract
    (stO : OrganizationResourceModel) (stW : WorkspaceResourceModel)
    (stV : VariableResourceModel) (stC : VCSResourceModel) (status : Nat) :
    ((status = 204 ∨ status = 200) →
      organizationDeleteGo stO status = ⟨[], none⟩ ∧
      workspaceDeleteGo stW status = ⟨[], none⟩ ∧
      variableDeleteGo stV status = ⟨[], none⟩ ∧
      vcsDeleteGo stC status = ⟨[], none⟩) ∧
    (status ≠ 204 → status ≠ 200 →
      organizationDeleteGo stO status = ⟨["Delete failed"], some stO⟩ ∧
      workspaceDeleteGo stW status = ⟨["Delete failed"], some stW⟩ ∧
      variableDeleteGo stV status = ⟨["Delete failed"], some stV⟩ ∧
      vcsDeleteGo stC status = ⟨["Delete failed"], some stC⟩) := by
  constructor
  · rintro (rfl | rfl) <;> exact ⟨rfl, rfl, rfl, rfl⟩
  · intro h1 h2
    simp only [organizationDeleteGo, workspaceDeleteGo, variableDeleteGo, vcsDeleteGo,
      if_pos (And.intro h1 h2)]
    exact ⟨trivial, trivial, trivial, trivial⟩

/-- Witness for C1's amended theorem at concrete inputs: status 204 removes
the record everywhere, status 500 keeps it everywhere. -/
theorem deleteStatusContract_witness :
    organizationDeleteGo exOrgState 204 = ⟨[], none⟩ ∧
    vcsDeleteGo exVcsState 500 = ⟨["Delete failed"], some exVcsState⟩ :=
  ⟨((deleteStatusContract exOrgState exWsState exVarState exVcsState 204).1 (Or.inl rfl)).1,
   ((deleteStatusContract exOrgState exWsState exVarState exVcsState 500).2
      (by decide) (by decide)).2.2.2⟩

/-! ## C2 -/

/-- C2 counterexample: the Variable resource does NOT retain the sensitive
`value` across a Read when the response omits it — a successful Read
overwrites the stored `"old-secret"` with the decoded zero value `""`. -/
theorem readSecretRetention_cex :
    (variableReadGo exVarState 200 exVarRespNoValue).diags = [] ∧
    (variableReadGo exVarState 200 exVarRespNoValue).state.map (·.value) ≠
      some exVarState.value ∧
    (variableReadGo exVarState 200 exVarRespNoValue).state.map (·.value) =
      some (some "") := by
  refine ⟨rfl, ?_, rfl⟩
  decide

/-- C2 amended: a successful Read of the VCS resource retains the write-only
`client_secret` at its last-written value while every non-secret field is
overwritten from the response; the Variable resource instead overwrites its
`value` with the response's `value` field (so the last-written value
survives only when the response carries it, and becomes `""` when the
response omits the field). -/
theorem readSecretRetention_amended
    (stC : VCSResourceModel) (rC : VCSAPIResponse)
    (stV : VariableResourceModel) (rV : VariableAPIResponse) :
    (vcsReadGo stC 200 rC).state = some
      { id := some rC.id
        organizationName := stC.organizationName
        name := some rC.name
        vcsType := some rC.vcsType
        url := some rC.url
        clientId := some rC.clientId
        clientSecret := stC.clientSecret
        description := some rC.description
        createdAt := some rC.createdAt
        updatedAt := some rC.updatedAt } ∧
    (variableReadGo stV 200 rV).state.map (·.value) = some (some rV.value) :=
  ⟨rfl, rfl⟩

/-! ## C3 -/

/-- Organization plan identical to `exOrgState` except that `agents_enabled`
is changed to `false`. -/
def exOrgPlanAgentsOff : OrganizationResourceModel :=
  { exOrgState with agentsEnabled := some false }

/-- C3 counterexample: the Organization `agents_enabled` carries NO presence
marker — it is a bare `bool` under `omitempty`, so the PATCH payload
produced when the boolean is changed to `false` is the empty object,
indistinguishable from the payload produced when nothing changed. -/
theorem boolPresenceMarker_cex :
    exOrgPlanAgentsOff.agentsEnabled ≠ exOrgState.agentsEnabled ∧
    organizationUpdatePayload exOrgPlanAgentsOff exOrgState =
      organizationUpdatePayload exOrgState exOrgState ∧
    organizationUpdatePayload exOrgPlanAgentsOff exOrgState = [] := by
  refine ⟨by decide, by decide, by decide⟩

/-- C3 amended: the Variable resource's `sensitive` and `hcl` use a `*bool`
presence marker, so whenever plan and state differ on such a boolean the
PATCH payload carries it explicitly (also when the new value is `false`);
the Organization's `agents_enabled` has no marker: changing it to `false`
(with the other fields unchanged) yields the same payload as changing
nothing. -/
theorem boolPresenceMarker_amended
    (p s : VariableResourceModel) (op os : OrganizationResourceModel) :
    (p.sensitive ≠ s.sensitive →
      ("sensitive", Jval.bool (p.sensitive.getD false)) ∈ variableUpdatePayload p s) ∧
    (p.hcl ≠ s.hcl →
      ("hcl", Jval.bool (p.hcl.getD false)) ∈ variableUpdatePayload p s) ∧
    (op.name = os.name → op.executionMode = os.executionMode →
      op.agentsEnabled ≠ os.agentsEnabled → op.agentsEnabled.getD false = false →
      organizationUpdatePayload op os = organizationUpdatePayload os os) := by
  refine ⟨?_, ?_, ?_⟩
  · intro h
    simp [variableUpdatePayload, marshalVariableUpdateRequest, variableUpdateRequestOf, h]
  · intro h
    simp [variableUpdatePayload, marshalVariableUpdateRequest, variableUpdateRequestOf, h]
  · intro hn he hb hf
    simp [organizationUpdatePayload, marshalOrganizationUpdateRequest,
      organizationUpdateRequestOf, hn, he, hb, hf]

/-- Witness for C3's amended theorem at concrete inputs: the variable's
`sensitive` flipped to `false` still appears in the payload, and the
organization's `agents_enabled` flipped to `false` leaves the payload equal
to the unchanged one. -/
theorem boolPresenceMarker_witness :
    ("sensitive", Jval.bool false) ∈
      variableUpdatePayload { exVarState with sensitive := some false } exVarState ∧
    organizationUpdatePayload exOrgPlanAgentsOff exOrgState =
      organizationUpdatePayload exOrgState exOrgState := by
  have h := boolPresenceMarker_amended
    { exVarState with sensitive := some false } exVarState exOrgPlanAgentsOff exOrgState
  exact ⟨h.1 (by decide), h.2.2 (by decide) (by decide) (by decide) (by decide)⟩

/-! ## C4 -/

/-- An organization plan whose name matches the server record. -/
def exOrgPlan : OrganizationResourceModel :=
  { id := none
    name := some "test-org"
    createdAt := none
    updatedAt := none
    executionMode := some "remote"
    agentsEnabled := some true }

/-- C4 counterexample: with the server echoing the stored record unchanged
and its `execution_mode` being `"Remote"`, a successful Create stores the
lower-cased `"remote"` but the subsequent Read stores the verbatim
`"Remote"` — the Organization adapter does not map the server's
`execution_mode` to the same state string in Create and in Read, and the
resulting states differ. -/
theorem createThenRead_cex :
    (organizationCreateGo exOrgPlan 201 exOrgResp).state.map (·.executionMode) =
      some (some "remote") ∧
    ((organizationCreateGo exOrgPlan 201 exOrgResp).state.bind
        (fun st => (organizationReadGo st 200 exOrgResp).state)).map (·.executionMode) =
      some (some "Remote") ∧
    (organizationCreateGo exOrgPlan 201 exOrgResp).state.bind
        (fun st => (organizationReadGo st 200 exOrgResp).state) ≠
      (organizationCreateGo exOrgPlan 201 exOrgResp).state := by
  refine ⟨by decide, by decide, by decide⟩

/-- C4 amended: a successful Create followed by a successful Read of the same
record (the server echoing the stored record unchanged) leaves local state
identical for the Workspace, Variable and VCS adapters unconditionally (all
non-secret fields, the write-only secret included, since Read leaves it
untouched); the Organization adapter yields identical state provided the
server's stored name matches the planned name (Create never overwrites
`name`) and the server's `execution_mode` is already lower-case, because
Create lower-cases it while Read stores it verbatim. -/
theorem createThenRead_amended
    (po : OrganizationResourceModel) (ro : OrganizationAPIResponse)
    (pw : WorkspaceResourceModel) (rw : WorkspaceAPIResponse)
    (pv : VariableResourceModel) (rv : VariableAPIResponse)
    (pc : VCSResourceModel) (rc : VCSAPIResponse) :
    (po.name = some ro.name → goToLower ro.executionMode = ro.executionMode →
      organizationReadState (organizationCreateState po ro) ro =
        organizationCreateState po ro) ∧
    workspaceReadState (workspaceCreateState pw rw) rw = workspaceCreateState pw rw ∧
    variableReadState (variableCreateState pv rv) rv = variableCreateState pv rv ∧
    vcsReadState (vcsCreateState pc rc) rc = vcsCreateState pc rc := by
  refine ⟨?_, rfl, rfl, rfl⟩
  intro h1 h2
  simp [organizationCreateState, organizationReadState, h1, h2]

/-- Witness for C4's amended theorem at concrete inputs: with a lower-case
`execution_mode` in the echoed record the Organization round trip leaves the
state unchanged. -/
theorem createThenRead_witness :
    organizationReadState (organizationCreateState exOrgPlan exOrgRespLower) exOrgRespLower =
      organizationCreateState exOrgPlan exOrgRespLower :=
  (createThenRead_amended exOrgPlan exOrgRespLower exWsState exWsResp exVarState exVarResp
    exVcsState exVcsResp).1 (by decide) (by decide)

/-! ## C6 -/

/-- Workspace plan identical to `exWsState` except that `description` is
changed to the empty string. -/
def exWsPlanDescEmpty : WorkspaceResourceModel :=
  { exWsState with description := some "" }

/-- C6 counterexample: the PATCH payload does NOT contain every changed
field — changing the workspace `description` from `"a"` to `""` makes plan
and state differ on it, yet `omitempty` drops the zero-valued field and the
payload is empty. -/
theorem updatePayloadExactness_cex :
    exWsPlanDescEmpty.description ≠ exWsState.description ∧
    "description" ∉ (workspaceUpdatePayload exWsPlanDescEmpty exWsState).map Prod.fst ∧
    workspaceUpdatePayload exWsPlanDescEmpty exWsState = [] := by
  refine ⟨by decide, by decide, by decide⟩


/-- Key membership in one `omitempty` block of a marshalled payload. -/
theorem keyMemIteBlock (c : Prop) [Decidable c] (k q : String) (v : Jval) :
    (q ∈ ((if c then ([] : List (String × Jval)) else [(k, v)]).map Prod.fst)) ↔
      (¬c ∧ q = k) := by
  split <;> simp_all

/-- Key membership in one pointer-boolean block of a marshalled payload. -/
theorem keyMemOptBoolBlock (o : Option Bool) (k q : String) :
    (q ∈ ((match o with
            | none => ([] : List (String × Jval))
            | some b => [(k, Jval.bool b)]).map Prod.fst)) ↔
      (o ≠ none ∧ q = k) := by
  cases o <;> simp

/-- C6 amended: for every resource adapter's Update, a field appears in the
serialized PATCH payload iff its plan value differs from its state value AND
its marshalled value is not the Go zero value: a changed string field
appears iff the planned string is non-empty, the bare boolean
`agents_enabled` appears iff changed and `true`, and the pointer-marked
Variable booleans appear iff changed (any value).  In particular every
unchanged field is absent, but so is every field changed to `""` (or
`agents_enabled` changed to `false`). -/
theorem updatePayloadExactness
    (po so : OrganizationResourceModel) (pw sw : WorkspaceResourceModel)
    (pv sv : VariableResourceModel) (pc sc : VCSResourceModel) :
    ((("name" ∈ (organizationUpdatePayload po so).map Prod.fst) ↔
        (po.name ≠ so.name ∧ po.name.getD "" ≠ "")) ∧
      (("execution_mode" ∈ (organizationUpdatePayload po so).map Prod.fst) ↔
        (po.executionMode ≠ so.executionMode ∧ po.executionMode.getD "" ≠ "")) ∧
      (("agents_enabled" ∈ (organizationUpdatePayload po so).map Prod.fst) ↔
        (po.agentsEnabled ≠ so.agentsEnabled ∧ po.agentsEnabled.getD false = true))) ∧
    ((("name" ∈ (workspaceUpdatePayload pw sw).map Prod.fst) ↔
        (pw.name ≠ sw.name ∧ pw.name.getD "" ≠ "")) ∧
      (("description" ∈ (workspaceUpdatePayload pw sw).map Prod.fst) ↔
        (pw.description ≠ sw.description ∧ pw.description.getD "" ≠ "")) ∧
      (("source" ∈ (workspaceUpdatePayload pw sw).map Prod.fst) ↔
        (pw.source ≠ sw.source ∧ pw.source.getD "" ≠ "")) ∧
      (("branch" ∈ (workspaceUpdatePayload pw sw).map Prod.fst) ↔
        (pw.branch ≠ sw.branch ∧ pw.branch.getD "" ≠ "")) ∧
      (("terraform_version" ∈ (workspaceUpdatePayload pw sw).map Prod.fst) ↔
        (pw.terraformVersion ≠ sw.terraformVersion ∧ pw.terraformVersion.getD "" ≠ ""))) ∧
    ((("key" ∈ (variableUpdatePayload pv sv).map Prod.fst) ↔
        (pv.key ≠ sv.key ∧ pv.key.getD "" ≠ "")) ∧
      (("value" ∈ (variableUpdatePayload pv sv).map Prod.fst) ↔
        (pv.value ≠ sv.value ∧ pv.value.getD "" ≠ "")) ∧
      (("description" ∈ (variableUpdatePayload pv sv).map Prod.fst) ↔
        (pv.description ≠ sv.description ∧ pv.description.getD "" ≠ "")) ∧
      (("category" ∈ (variableUpdatePayload pv sv).map Prod.fst) ↔
        (pv.category ≠ sv.category ∧ pv.category.getD "" ≠ "")) ∧
      (("sensitive" ∈ (variableUpdatePayload pv sv).map Prod.fst) ↔
        pv.sensitive ≠ sv.sensitive) ∧
      (("hcl" ∈ (variableUpdatePayload pv sv).map Prod.fst) ↔
        pv.hcl ≠ sv.hcl)) ∧
    ((("name" ∈ (vcsUpdatePayload pc sc).map Prod.fst) ↔
        (pc.name ≠ sc.name ∧ pc.name.getD "" ≠ "")) ∧
      (("vcs_type" ∈ (vcsUpdatePayload pc sc).map Prod.fst) ↔
        (pc.vcsType ≠ sc.vcsType ∧ pc.vcsType.getD "" ≠ "")) ∧
      (("url" ∈ (vcsUpdatePayload pc sc).map Prod.fst) ↔
        (pc.url ≠ sc.url ∧ pc.url.getD "" ≠ "")) ∧
      (("clientId" ∈ (vcsUpdatePayload pc sc).map Prod.fst) ↔
        (pc.clientId ≠ sc.clientId ∧ pc.clientId.getD "" ≠ "")) ∧
      (("clientSecret" ∈ (vcsUpdatePayload pc sc).map Prod.fst) ↔
        (pc.clientSecret ≠ sc.clientSecret ∧ pc.clientSecret.getD "" ≠ "")) ∧
      (("description" ∈ (vcsUpdatePayload pc sc).map Prod.fst) ↔
        (pc.description ≠ sc.description ∧ pc.description.getD "" ≠ ""))) := by
  simp only [organizationUpdatePayload, marshalOrganizationUpdateRequest,
    organizationUpdateRequestOf, workspaceUpdatePayload,
    marshalWorkspaceUpdateRequest, workspaceUpdateRequestOf,
    variableUpdatePayload, marshalVariableUpdateRequest,
    variableUpdateRequestOf, vcsUpdatePayload, marshalVCSUpdateRequest,
    vcsUpdateRequestOf, List.map_append, List.mem_append, keyMemIteBlock,
    keyMemOptBoolBlock]
  refine ⟨⟨?_, ?_, ?_⟩, ⟨?_, ?_, ?_, ?_, ?_⟩, ⟨?_, ?_, ?_, ?_, ?_, ?_⟩,
    ⟨?_, ?_, ?_, ?_, ?_, ?_⟩⟩
  · by_cases h : po.name = so.name <;> simp [h]
  · by_cases h : po.executionMode = so.executionMode <;> simp [h]
  · by_cases h : po.agentsEnabled = so.agentsEnabled <;> simp [h]
  · by_cases h : pw.name = sw.name <;> simp [h]
  · by_cases h : pw.description = sw.description <;> simp [h]
  · by_cases h : pw.source = sw.source <;> simp [h]
  · by_cases h : pw.branch = sw.branch <;> simp [h]
  · by_cases h : pw.terraformVersion = sw.terraformVersion <;> simp [h]
  · by_cases h : pv.key = sv.key <;> simp [h]
  · by_cases h : pv.value = sv.value <;> simp [h]
  · by_cases h : pv.description = sv.description <;> simp [h]
  · by_cases h : pv.category = sv.category <;> simp [h]
  · by_cases h : pv.sensitive = sv.sensitive <;> simp [h]
  · by_cases h : pv.hcl = sv.hcl <;> simp [h]
  · by_cases h : pc.name = sc.name <;> simp [h]
  · by_cases h : pc.vcsType = sc.vcsType <;> simp [h]
  · by_cases h : pc.url = sc.url <;> simp [h]
  · by_cases h : pc.clientId = sc.clientId <;> simp [h]
  · by_cases h : pc.clientSecret = sc.clientSecret <;> simp [h]
  · by_cases h : pc.description = sc.description <;> simp [h]

/-- Witness for C6's amended theorem at concrete inputs: a changed non-empty
`description` is present in the payload, while the `description` changed to
`""` is absent. -/
theorem updatePayloadExactness_witness :
    ("description" ∈
      (workspaceUpdatePayload { exWsState with description := some "b" } exWsState).map
        Prod.fst) ∧
    "description" ∉ (workspaceUpdatePayload exWsPlanDescEmpty exWsState).map Prod.fst := by
  have h := updatePayloadExactness exOrgState exOrgState
    { exWsState with description := some "b" } exWsState exVarState exVarState
    exVcsState exVcsState
  have h2 := updatePayloadExactness exOrgState exOrgState
    exWsPlanDescEmpty exWsState exVarState exVarState exVcsState exVcsState
  exact ⟨h.2.1.2.1.mpr (by decide), fun hm => absurd (h2.2.1.2.1.mp hm) (by decide)⟩

/-! ## C7 -/

/-- C7: for every import key whose colon-split segment count is not exactly
two, ImportState of the Workspace and VCS resources reports the fatal
invalid-format diagnostic and issues no network call, whatever the would-be
exchange would have returned. -/
theorem importKeyFormat (key : String)
    (h : (goSplit key ':').length ≠ 2) (status : Nat)
    (lw : List WorkspaceAPIResponse) (lv : List VCSAPIResponse) :
    workspaceImportStateGo key status lw =
      ⟨["Invalid import ID format"], false, none⟩ ∧
    vcsImportStateGo key status lv =
      ⟨["Invalid import ID format"], false, none⟩ := by
  unfold workspaceImportStateGo vcsImportStateGo
  rcases hs : goSplit key ':' with _ | ⟨a, _ | ⟨b, _ | ⟨c, rest⟩⟩⟩
  · exact ⟨rfl, rfl⟩
  · exact ⟨rfl, rfl⟩
  · rw [hs] at h; simp at h
  · exact ⟨rfl, rfl⟩

/-- Witness for C7's theorem at the concrete keys of the spec: the
four-segment key `"a:b:c:d"` is rejected without a network call. -/
theorem importKeyFormat_witness :
    workspaceImportStateGo "a:b:c:d" 200 [] =
      ⟨["Invalid import ID format"], false, none⟩ ∧
    vcsImportStateGo "a:b:c:d" 200 [] =
      ⟨["Invalid import ID format"], false, none⟩ :=
  importKeyFormat "a:b:c:d" (by decide) 200 [] []

/-! ## C8 -/

/-- C8: importing a workspace with a two-segment key resolves, over any list
returned by the list endpoint, to exactly the id that the workspace data
source's by-name resolution stores for the same scope and name: both
linear-scan the list and take the first record whose name matches exactly. -/
theorem importMatchesDataSourceResolution (key org name : String)
    (h : goSplit key ':' = [org, name])
    (single : WorkspaceAPIResponse) (list : List WorkspaceAPIResponse) :
    ((workspaceImportStateGo key 200 list).state.bind (·.id)) =
      ((workspaceDataSourceReadGo ⟨none, some org, some name⟩ 200 single list).state.bind
        (·.id)) := by
  unfold workspaceImportStateGo workspaceDataSourceReadGo
  rw [h]
  simp only [Option.getD]
  cases hf : list.find? (fun w => w.name = name) <;>
    simp [hf, workspaceDataSourceModelOf]

/-- Witness for C8's theorem at a concrete key and list. -/
theorem importMatchesDataSourceResolution_witness :
    ((workspaceImportStateGo "test-org:test-workspace" 200 [exWsResp]).state.bind (·.id)) =
      ((workspaceDataSourceReadGo ⟨none, some "test-org", some "test-workspace"⟩ 200
          exWsResp [exWsResp]).state.bind (·.id)) :=
  importMatchesDataSourceResolution "test-org:test-workspace" "test-org" "test-workspace"
    (by decide) exWsResp [exWsResp]

/-! ## C9 -/

/-- C9: every data source Read whose configuration supplies neither an id
nor the complete name-based filter (scope plus name where a scope exists;
plain name for the organization) reports the fatal missing-parameter
diagnostic and issues no network call, whatever the would-be exchange would
have returned. -/
theorem dataSourceValidation
    (fw : WorkspaceDataSourceFilterModel) (fo : OrganizationDataSourceFilterModel)
    (fv : VCSDataSourceFilterModel) (status : Nat)
    (sw : WorkspaceAPIResponse) (lw : List WorkspaceAPIResponse)
    (so : OrganizationDataAPIResponse) (lo : List OrganizationDataAPIResponse)
    (sv : VCSAPIResponse) (lv : List VCSAPIResponse) :
    (fw.id = none → (fw.organizationName = none ∨ fw.name = none) →
      workspaceDataSourceReadGo fw status sw lw =
        ⟨["Missing required parameter"], false, none⟩) ∧
    (fo.id = none → fo.name = none →
      organizationDataSourceReadGo fo status so lo =
        ⟨["Missing required parameter"], false, none⟩) ∧
    (fv.id = none → (fv.organizationName = none ∨ fv.name = none) →
      vcsDataSourceReadGo fv status sv lv =
        ⟨["Missing required parameter"], false, none⟩) := by
  refine ⟨fun h1 h2 => ?_, fun h1 h2 => ?_, fun h1 h2 => ?_⟩
  · unfold workspaceDataSourceReadGo
    rw [if_pos ⟨h1, h2⟩]
  · unfold organizationDataSourceReadGo
    rw [if_pos ⟨h1, h2⟩]
  · unfold vcsDataSourceReadGo
    rw [if_pos ⟨h1, h2⟩]

/-- Witness for C9's theorem at the all-null filters. -/
theorem dataSourceValidation_witness :
    workspaceDataSourceReadGo ⟨none, none, none⟩ 200 exWsResp [] =
      ⟨["Missing required parameter"], false, none⟩ ∧
    organizationDataSourceReadGo ⟨none, none⟩ 200
        ⟨"", "", [], "", "", [], "", false⟩ [] =
      ⟨["Missing required parameter"], false, none⟩ ∧
    vcsDataSourceReadGo ⟨none, none, none⟩ 200 exVcsResp [] =
      ⟨["Missing required parameter"], false, none⟩ := by
  have h := dataSourceValidation ⟨none, none, none⟩ ⟨none, none⟩ ⟨none, none, none⟩
    200 exWsResp [] ⟨"", "", [], "", "", [], "", false⟩ [] exVcsResp []
  exact ⟨h.1 rfl (Or.inl rfl), h.2.1 rfl rfl, h.2.2 rfl (Or.inl rfl)⟩

/-! ## C10 -/

/-- C10: after a successful VCS ImportState, every state field is populated
from the matched remote record except `client_secret`, which is left null
because the list response never carries the secret, and no diagnostic is
raised. -/
theorem vcsImportPopulatesAllButSecret (key org name : String)
    (h : goSplit key ':' = [org, name]) (list : List VCSAPIResponse)
    (v : VCSAPIResponse) (hf : list.find? (fun r => r.name = name) = some v) :
    vcsImportStateGo key 200 list =
      ⟨[], true, some
        { id := some v.id
          organizationName := some org
          name := some v.name
          vcsType := some v.vcsType
          url := some v.url
          clientId := some v.clientId
          clientSecret := none
          description := some v.description
          createdAt := some v.createdAt
          updatedAt := some v.updatedAt }⟩ := by
  unfold vcsImportStateGo
  rw [h]
  simp [hf]

/-- Witness for C10's theorem at a concrete key and list. -/
theorem vcsImportPopulatesAllButSecret_witness :
    vcsImportStateGo "test-org:test-vcs" 200 [exVcsResp] =
      ⟨[], true, some
        { id := some exVcsResp.id
          organizationName := some "test-org"
          name := some exVcsResp.name
          vcsType := some exVcsResp.vcsType
          url := some exVcsResp.url
          clientId := some exVcsResp.clientId
          clientSecret := none
          description := some exVcsResp.description
          createdAt := some exVcsResp.createdAt
          updatedAt := some exVcsResp.updatedAt }⟩ :=
  vcsImportPopulatesAllButSecret "test-org:test-vcs" "test-org" "test-vcs"
    (by decide) [exVcsResp] exVcsResp (by decide)
